import Mathlib

/-!
A shallow embedding of the NEAT evolutionary engine implemented in
src/models/neatevolve.py, together with theorems settling the behavioural
claims about it.

Modelling conventions:
* Python floats are modelled as rationals (ℚ); all arithmetic in the source
  is plain +, *, /, abs, floor, so values stay exact.
* Python exceptions are modelled with Except NeatError; each constructor of
  NeatError records the Python exception raised at the corresponding place.
* The process-wide INNOVATION counter is threaded explicitly as a ℕ argument
  and returned updated.
* Randomness (RANDOM.random() and RANDOM.choice(seq)) is modelled by a Tape
  of pre-drawn values: RANDOM.random() consumes the next rational from
  Tape.reals, RANDOM.choice(seq) consumes the next natural i from
  Tape.choices and returns seq[i % len(seq)] (none on an empty sequence,
  which in Python raises IndexError).
* Python object mutation is modelled by returning updated copies; where the
  source mutates an object aliased from several places, the model updates
  the copy that is subsequently read, and a comment records the aliasing.
-/

deriving instance DecidableEq for Except

/- Rational arithmetic must evaluate inside decide; the batteries library
marks these operations irreducible for the elaborator (the kernel ignores
reducibility), so they are locally re-marked. -/
attribute [local semireducible] Rat.add Rat.mul Rat.sub Rat.inv Rat.ofScientific

/-- Python exceptions raised by models/neatevolve.py.  The spec names an
abstract taxonomy (ConflictError, NotFoundError, MembershipError, ...);
the comments record which concrete Python exception each constructor
models. -/
inductive NeatError where
  /-- ValueError: a connection between the two nodes already exists
  (the ConflictError of the spec). -/
  | conflictError
  /-- AttributeError: attribute access on None (e.g. get_node returned None). -/
  | attributeError
  /-- TypeError: Node.add_incoming called with None. -/
  | typeError
  /-- IndexError: RANDOM.choice on an empty sequence. -/
  | indexError
  /-- ZeroDivisionError: float division by zero. -/
  | zeroDivisionError
  /-- ValueError: max() arg is an empty sequence (in get_gene_differences). -/
  | emptySequenceError
  /-- ValueError: genome not part of the species population
  (the MembershipError of the spec). -/
  | membershipError
deriving DecidableEq

/-- A connection gene between two node genes (class Connection).
Connection.__init__ defaults weight to 0.5 and enabled to True; the
Python Connection.copy() is the identity on this immutable model. -/
structure Connection where
  input_node : ℕ
  output_node : ℕ
  innovation : ℕ
  weight : ℚ
  enabled : Bool
deriving DecidableEq

/-- A node gene (class Node): id, innovation numbers of incoming
connections, activation value. -/
structure Node where
  innovation : ℕ
  incoming : List ℕ
  value : ℚ
deriving DecidableEq

/-- A collection of node genes connected by connection genes (class Genome).
Genome.__init__ sets fitness to 0. -/
structure Genome where
  input_nodes : List Node
  hidden_nodes : List Node
  output_nodes : List Node
  connections : List Connection
  fitness : ℚ
deriving DecidableEq

/-- A species (class Species). Species.__init__ puts the representative into
the population, sets champion to None, fitness to 0.0 and max_population
to 0.  max_population is an ℤ because math.floor of a negative quotient is
negative (Python range(...) over a negative bound is then empty). -/
structure Species where
  id : ℕ
  population : List Genome
  representative : Genome
  champion : Option Genome
  fitness : ℚ
  max_population : ℤ
deriving DecidableEq

/-- A generation (class Generation).  mutated_connections and mutated_nodes
are the innovation ledgers; Generation.__init__ creates them empty.  Note
that no code in models/neatevolve.py ever appends to either ledger: they
are only read (check_for_duplicate_connection / check_for_duplicate_node
and the duplicate branch of mutate_add_node). -/
structure Generation where
  epoch : ℕ
  genomes : List Genome
  mutated_connections : List Connection
  mutated_nodes : List (Node × Connection)
  species : List Species
deriving DecidableEq

/-- The tape of pre-drawn random values (see the module comment). -/
structure Tape where
  reals : List ℚ
  choices : List ℕ
deriving DecidableEq

/-- Consume the next RANDOM.random() draw; an exhausted tape yields 0
(theorems always supply sufficiently long tapes). -/
def Tape.nextReal (t : Tape) : ℚ × Tape :=
  match t.reals with
  | [] => (0, t)
  | r :: rs => (r, { t with reals := rs })

/-- Consume the next RANDOM.choice draw (an index). -/
def Tape.nextChoice (t : Tape) : ℕ × Tape :=
  match t.choices with
  | [] => (0, t)
  | c :: cs => (c, { t with choices := cs })

/-- RANDOM.choice(seq): pick the element at the next tape index modulo the
length; none models the IndexError Python raises on an empty sequence. -/
def chooseFrom (t : Tape) (xs : List α) : Option α × Tape :=
  let p := t.nextChoice
  (xs.get? (p.1 % xs.length), p.2)

/- Module-level constants of models/neatevolve.py, written as exact
rationals. -/

def EXCESS_GENES_COEFFICIENT : ℚ := 1
def DISJOINT_GENES_COEFFICIENT : ℚ := 1
def WEIGHT_DIFFERENCE_COEFFICIENT : ℚ := 2/5
def NORMALISE_COMPAT_DISTANCE_FOR_GENE_SIZE : Bool := false
def CHAMPION_THRESHOLD : ℕ := 5
def COMPATIBILITY_THRESHOLD : ℚ := 3
def DISABLED_GENE_REENABLE_CHANCE : ℚ := 1/4
def MUTATE_ADD_NODE_CHANCE : ℚ := 3/100
def MUTATE_ADD_CONNECTION_CHANCE : ℚ := 1/20
def MUTATE_WEIGHTS_CHANCE : ℚ := 4/5
def MUTATE_WEIGHTS_UNIFORMLY_CHANCE : ℚ := 9/10
def PRUNE_LOW_PERFORMERS_FRACTION : ℚ := 1/4
def MAX_POPULATION_SIZE : ℕ := 150
def STEP_SIZE : ℚ := 1/10

/-- math.fabs on rationals. -/
def fabs (q : ℚ) : ℚ := if q < 0 then -q else q

theorem fabs_eq_abs (q : ℚ) : fabs q = |q| := by
  unfold fabs
  rcases lt_or_le q 0 with h | h
  · rw [if_pos h, abs_of_neg h]
  · rw [if_neg (not_lt.mpr h), abs_of_nonneg h]

/-- get_connection(connections, innovation=...): first connection whose
innovation number matches, None otherwise.  The Python get_connection is a
single function dispatching on which keyword arguments are given (raising
ValueError when neither lookup key is given); the two dispatch targets are
modelled as two functions since every call site fixes its keywords. -/
def get_connection_by_innovation (connections : List Connection) (innovation : ℕ) :
    Option Connection :=
  connections.find? (fun c => c.innovation == innovation)

/-- get_connection(connections, input_node=..., output_node=...): first
connection matching both endpoints, None otherwise. -/
def get_connection_by_nodes (connections : List Connection) (input_node output_node : ℕ) :
    Option Connection :=
  connections.find? (fun c => c.input_node == input_node && c.output_node == output_node)

/-- The set of innovation numbers of a genome's connection genes
(set([x.innovation for x in genome.connections])). -/
def genome_innovations (g : Genome) : Finset ℕ :=
  (g.connections.map (fun c => c.innovation)).toFinset

/-- max(innovations) of a genome.  Only used (by get_gene_differences) under
a guard guaranteeing the genome has at least one connection, where the fold
with default 0 equals the true maximum of the naturals. -/
def max_innovation (g : Genome) : ℕ :=
  (g.connections.map (fun c => c.innovation)).foldr max 0

/-- Weight of the first connection of g carrying the given innovation number
(only used for innovation numbers present in g, so the default 0 is never
taken at call sites). -/
def connection_weight (g : Genome) (innovation : ℕ) : ℚ :=
  match get_connection_by_innovation g.connections innovation with
  | some c => c.weight
  | none => 0

/-- get_gene_differences: number of excess genes, number of disjoint genes,
and total weight difference over matching genes.

The Python loop iterates over the union set (in unspecified set order)
accumulating the three counters; the counters are iteration-order
independent, and they equal these closed-form counts and sum:
* a one-sided innovation i of g1 is excess when i > max(innovations of g2),
  disjoint otherwise, and symmetrically for g2;
* matching innovations contribute abs(weight difference) of the first
  connection carrying them in each genome.

When exactly one genome has no connections, every union element is
one-sided and its classification evaluates max() of the other, empty,
innovation set, raising ValueError on the first loop iteration; when both
are empty the loop body never runs and (0, 0, 0.0) is returned. -/
def get_gene_differences (g1 g2 : Genome) : Except NeatError (ℕ × ℕ × ℚ) :=
  let s1 := genome_innovations g1
  let s2 := genome_innovations g2
  if (s1 = ∅ ∧ s2 ≠ ∅) ∨ (s2 = ∅ ∧ s1 ≠ ∅) then
    .error .emptySequenceError
  else
    let excess := ((s1 \ s2).filter (fun i => max_innovation g2 < i)).card
                + ((s2 \ s1).filter (fun i => max_innovation g1 < i)).card
    let disjoint := ((s1 \ s2).filter (fun i => ¬ max_innovation g2 < i)).card
                  + ((s2 \ s1).filter (fun i => ¬ max_innovation g1 < i)).card
    let weight := Finset.sum (s1 ∩ s2)
      (fun i => fabs (connection_weight g1 i - connection_weight g2 i))
    .ok (excess, disjoint, weight)

/-- get_compatibility_distance.  The source reads the module global
NORMALISE_COMPAT_DISTANCE_FOR_GENE_SIZE (an overridable hyperparameter,
reassigned by the tests); it is passed here as the first argument.
len(genome) is len(genome.connections).  Python float division raises
ZeroDivisionError when n_genes is 0 (reachable only with normalise set and
two connectionless genomes). -/
def get_compatibility_distance (normalise : Bool) (first_genome second_genome : Genome) :
    Except NeatError ℚ :=
  let n0 := max first_genome.connections.length second_genome.connections.length
  let n_genes : ℕ := if normalise = false ∧ n0 < 20 then 1 else n0
  match get_gene_differences first_genome second_genome with
  | .error e => .error e
  | .ok (excess, disjoint, weight) =>
    if n_genes = 0 then .error .zeroDivisionError
    else
      .ok (EXCESS_GENES_COEFFICIENT * excess / n_genes
         + DISJOINT_GENES_COEFFICIENT * disjoint / n_genes
         + WEIGHT_DIFFERENCE_COEFFICIENT * weight)

/- The two parent genomes of the NEAT paper Figure 4, with the weights and
disabled flags used by the repository test fixture parent_genomes
(tests/models/test_neatevolve.py): matching innovations 1..5, gene 2
disabled in both parents, gene 5 disabled in the second parent, first
parent additionally carrying gene 8, second parent genes 6, 7, 9, 10. -/

def fig4_node (i : ℕ) : Node := { innovation := i, incoming := [], value := 0 }

def fig4_first_parent : Genome :=
  { input_nodes := [fig4_node 1, fig4_node 2, fig4_node 3]
    output_nodes := [fig4_node 4]
    hidden_nodes := [fig4_node 5]
    connections :=
      [ { input_node := 1, output_node := 4, innovation := 1, weight := 1/10, enabled := true }
      , { input_node := 2, output_node := 4, innovation := 2, weight := 3/5, enabled := false }
      , { input_node := 3, output_node := 4, innovation := 3, weight := 7/10, enabled := true }
      , { input_node := 2, output_node := 5, innovation := 4, weight := 4/5, enabled := true }
      , { input_node := 5, output_node := 4, innovation := 5, weight := 1/5, enabled := true }
      , { input_node := 1, output_node := 5, innovation := 8, weight := 2/5, enabled := true } ]
    fitness := 5 }

def fig4_second_parent : Genome :=
  { input_nodes := [fig4_node 1, fig4_node 2, fig4_node 3]
    output_nodes := [fig4_node 4]
    hidden_nodes := [fig4_node 5, fig4_node 6]
    connections :=
      [ { input_node := 1, output_node := 4, innovation := 1, weight := 3/10, enabled := true }
      , { input_node := 2, output_node := 4, innovation := 2, weight := 3/5, enabled := false }
      , { input_node := 3, output_node := 4, innovation := 3, weight := 2/5, enabled := true }
      , { input_node := 2, output_node := 5, innovation := 4, weight := 4/5, enabled := true }
      , { input_node := 5, output_node := 4, innovation := 5, weight := 9/10, enabled := false }
      , { input_node := 5, output_node := 6, innovation := 6, weight := 1/10, enabled := true }
      , { input_node := 6, output_node := 4, innovation := 7, weight := 3/5, enabled := true }
      , { input_node := 3, output_node := 5, innovation := 9, weight := 7/10, enabled := true }
      , { input_node := 1, output_node := 6, innovation := 10, weight := 1, enabled := true } ]
    fitness := 2 }

/-- A genome with no nodes and no connection genes. -/
def empty_genome : Genome :=
  { input_nodes := [], hidden_nodes := [], output_nodes := [], connections := [], fitness := 0 }

theorem fabs_sub_comm (a b : ℚ) : fabs (a - b) = fabs (b - a) := by
  rw [fabs_eq_abs, fabs_eq_abs, abs_sub_comm]

theorem genome_innovations_eq_empty_iff (g : Genome) :
    genome_innovations g = ∅ ↔ g.connections = [] := by
  simp [genome_innovations]

/-- Swapping the two genomes swaps the two one-sided classification passes
and the orientation of every weight difference, so get_gene_differences is
symmetric (errors included). -/
theorem get_gene_differences_comm (g1 g2 : Genome) :
    get_gene_differences g1 g2 = get_gene_differences g2 g1 := by
  simp only [get_gene_differences]
  by_cases h : (genome_innovations g1 = ∅ ∧ genome_innovations g2 ≠ ∅) ∨
      (genome_innovations g2 = ∅ ∧ genome_innovations g1 ≠ ∅)
  · rw [if_pos h, if_pos (Or.symm h)]
  · rw [if_neg h, if_neg (fun h2 => h (Or.symm h2))]
    refine congrArg Except.ok ?_
    refine congrArg₂ Prod.mk (Nat.add_comm _ _) ?_
    refine congrArg₂ Prod.mk (Nat.add_comm _ _) ?_
    rw [Finset.inter_comm]
    exact Finset.sum_congr rfl (fun i _ => fabs_sub_comm _ _)

theorem get_compatibility_distance_error_of (b : Bool) (g1 g2 : Genome) (e : NeatError)
    (h : get_gene_differences g1 g2 = .error e) :
    get_compatibility_distance b g1 g2 = .error e := by
  unfold get_compatibility_distance
  rw [h]

theorem get_compatibility_distance_isOk_of (b : Bool) (g1 g2 : Genome) (ve vd : ℕ) (vw : ℚ)
    (h : get_gene_differences g1 g2 = .ok (ve, vd, vw))
    (hn : ¬ (b = false ∧ max g1.connections.length g2.connections.length < 20) →
        max g1.connections.length g2.connections.length ≠ 0) :
    (get_compatibility_distance b g1 g2).isOk = true := by
  simp only [get_compatibility_distance, h]
  by_cases hlt : b = false ∧ max g1.connections.length g2.connections.length < 20
  · rw [if_pos hlt]
    rfl
  · rw [if_neg hlt, if_neg (hn hlt)]
    rfl

/-- C5: on the NEAT Figure-4 parent pair (weights as in the repository test
fixture) the gene differences are 2 excess, 3 disjoint, total weight
difference 6/5 = 1.2, each of the five one-sided innovation numbers being
classified exactly once; the normalised distance (N = 9) is
(1·2 + 1·3)/9 + 0.4·1.2 = 233/225 ≈ 1.0356 (within 1/1000), and the
un-normalised distance (N clamped to 1) is 5 + 0.48 = 137/25 = 5.48
exactly. -/
theorem figure4_compatibility_distance :
    get_gene_differences fig4_first_parent fig4_second_parent = .ok (2, 3, 6/5)
    ∧ get_compatibility_distance true fig4_first_parent fig4_second_parent = .ok (233/225)
    ∧ get_compatibility_distance false fig4_first_parent fig4_second_parent = .ok (137/25)
    ∧ ((genome_innovations fig4_first_parent ∪ genome_innovations fig4_second_parent) \
        (genome_innovations fig4_first_parent ∩ genome_innovations fig4_second_parent)).card
      = 2 + 3
    ∧ fabs (233/225 - 10356/10000) < 1/1000
    ∧ (137/25 : ℚ) = 548/100 := by
  decide

/-- C8: the compatibility distance is symmetric in its two genome
arguments, for either value of the normalisation flag, errors included. -/
theorem compatibility_distance_symmetric (normalise : Bool) (g1 g2 : Genome) :
    get_compatibility_distance normalise g1 g2 = get_compatibility_distance normalise g2 g1 := by
  simp only [get_compatibility_distance]
  rw [get_gene_differences_comm, Nat.max_comm]

/-- C10: when exactly one genome has an empty connection list,
get_gene_differences evaluates max() of an empty innovation set and raises
(ValueError), and get_compatibility_distance propagates the error for
either normalisation flag; when both genomes have connections or neither
does, both functions return normally (distance taken at the module's
NORMALISE_COMPAT_DISTANCE_FOR_GENE_SIZE = False). -/
theorem gene_differences_empty_one_sided (g1 g2 : Genome) :
    ((g1.connections = [] ∧ g2.connections ≠ []) ∨ (g2.connections = [] ∧ g1.connections ≠ []) →
      get_gene_differences g1 g2 = .error .emptySequenceError
      ∧ ∀ b, get_compatibility_distance b g1 g2 = .error .emptySequenceError)
    ∧ ((g1.connections = [] ↔ g2.connections = []) →
      (get_gene_differences g1 g2).isOk = true
      ∧ (get_compatibility_distance NORMALISE_COMPAT_DISTANCE_FOR_GENE_SIZE g1 g2).isOk
          = true) := by
  constructor
  · intro h
    have hc : (genome_innovations g1 = ∅ ∧ genome_innovations g2 ≠ ∅) ∨
        (genome_innovations g2 = ∅ ∧ genome_innovations g1 ≠ ∅) := by
      rcases h with ⟨h1, h2⟩ | ⟨h1, h2⟩
      · exact Or.inl ⟨(genome_innovations_eq_empty_iff g1).mpr h1,
          fun he => h2 ((genome_innovations_eq_empty_iff g2).mp he)⟩
      · exact Or.inr ⟨(genome_innovations_eq_empty_iff g2).mpr h1,
          fun he => h2 ((genome_innovations_eq_empty_iff g1).mp he)⟩
    have hgd : get_gene_differences g1 g2 = .error .emptySequenceError := by
      simp only [get_gene_differences]
      rw [if_pos hc]
    exact ⟨hgd, fun b => get_compatibility_distance_error_of b g1 g2 _ hgd⟩
  · intro hiff
    have hc : ¬ ((genome_innovations g1 = ∅ ∧ genome_innovations g2 ≠ ∅) ∨
        (genome_innovations g2 = ∅ ∧ genome_innovations g1 ≠ ∅)) := by
      rintro (⟨h1, h2⟩ | ⟨h1, h2⟩)
      · exact h2 ((genome_innovations_eq_empty_iff g2).mpr
          (hiff.mp ((genome_innovations_eq_empty_iff g1).mp h1)))
      · exact h2 ((genome_innovations_eq_empty_iff g1).mpr
          (hiff.mpr ((genome_innovations_eq_empty_iff g2).mp h1)))
    have hgdOk : (get_gene_differences g1 g2).isOk = true := by
      simp only [get_gene_differences]
      rw [if_neg hc]
      rfl
    refine ⟨hgdOk, ?_⟩
    rcases hres : get_gene_differences g1 g2 with e | ⟨ve, vd, vw⟩
    · rw [hres] at hgdOk
      exact Bool.noConfusion hgdOk
    · refine get_compatibility_distance_isOk_of _ g1 g2 ve vd vw hres (fun hnot => ?_)
      have h20 : ¬ (max g1.connections.length g2.connections.length < 20) :=
        fun hlt => hnot ⟨rfl, hlt⟩
      omega

/-- Genome.get_node: linear search of the input, hidden, then output node
lists, None if absent. -/
def Genome.get_node (g : Genome) (innovation : ℕ) : Option Node :=
  (g.input_nodes.find? (fun n => n.innovation == innovation)).or
    ((g.hidden_nodes.find? (fun n => n.innovation == innovation)).or
      (g.output_nodes.find? (fun n => n.innovation == innovation)))

/-- Node.add_incoming: append the connection's innovation number (both the
Connection and the int overload append the same number). -/
def Node.add_incoming (n : Node) (innovation : ℕ) : Node :=
  { n with incoming := n.incoming ++ [innovation] }

/-- Replace the first node carrying the given id by its image under f
(Python mutates the node object get_node returns in place). -/
def update_node_in_list (nodes : List Node) (id : ℕ) (f : Node → Node) : List Node :=
  match nodes with
  | [] => []
  | n :: rest =>
    if n.innovation == id then f n :: rest
    else n :: update_node_in_list rest id f

/-- Apply f to the node Genome.get_node would return, in whichever of the
three lists holds it (searched in the same input, hidden, output order). -/
def Genome.update_node (g : Genome) (id : ℕ) (f : Node → Node) : Genome :=
  if (g.input_nodes.find? (fun n => n.innovation == id)).isSome then
    { g with input_nodes := update_node_in_list g.input_nodes id f }
  else if (g.hidden_nodes.find? (fun n => n.innovation == id)).isSome then
    { g with hidden_nodes := update_node_in_list g.hidden_nodes id f }
  else
    { g with output_nodes := update_node_in_list g.output_nodes id f }

theorem Genome.update_node_connections (g : Genome) (id : ℕ) (f : Node → Node) :
    (g.update_node id f).connections = g.connections := by
  unfold Genome.update_node
  split
  · rfl
  · split <;> rfl

/-- Generation.check_for_duplicate_connection: innovation number of the
first ledgered connection joining the two nodes, None if the ledger has no
such entry. -/
def Generation.check_for_duplicate_connection (gen : Generation) (input_node output_node : ℕ) :
    Option ℕ :=
  (gen.mutated_connections.find?
    (fun c => c.input_node == input_node && c.output_node == output_node)).map
    (fun c => c.innovation)

/-- Generation.check_for_duplicate_node: node id of the first ledger entry
whose split connection equals (Connection.__eq__, i.e. same innovation
number) the given one, None otherwise. -/
def Generation.check_for_duplicate_node (gen : Generation) (split_connection : Connection) :
    Option ℕ :=
  (gen.mutated_nodes.find?
    (fun p => p.2.innovation == split_connection.innovation)).map
    (fun p => p.1.innovation)

/-- Genome.mutate_add_connection.  Raises ValueError (ConflictError) when
the genome already joins the two nodes; raises AttributeError when the
output node does not exist (None.incoming).  Python truthiness: a ledger
hit with innovation number 0 would be falsy and treated as no duplicate.
The incoming registration on the output node uses the pre-deduplication
innovation number, exactly as the source appends it before the ledger
check.  NOTE: the source reads the generation ledger
(check_for_duplicate_connection) but never appends to
generation.mutated_connections, so the generation is not returned — it is
unchanged.  Returns the new connection, the updated genome, and the
updated global INNOVATION counter. -/
def Genome.mutate_add_connection (g : Genome) (input_node output_node : ℕ)
    (generation : Generation) (weight : ℚ) (inno : ℕ) :
    Except NeatError (Connection × Genome × ℕ) :=
  match get_connection_by_nodes g.connections input_node output_node with
  | some _ => .error .conflictError
  | none =>
    let mutated_connection : Connection :=
      { input_node := input_node, output_node := output_node, innovation := inno,
        weight := weight, enabled := true }
    match g.get_node output_node with
    | none => .error .attributeError
    | some _ =>
      let g1 := g.update_node output_node
        (fun n => n.add_incoming mutated_connection.innovation)
      let dupl : Option ℕ :=
        match generation.check_for_duplicate_connection input_node output_node with
        | some d => if d = 0 then none else some d
        | none => none
      match dupl with
      | some d =>
        let mc : Connection := { mutated_connection with innovation := d }
        .ok (mc, { g1 with connections := g1.connections ++ [mc] }, inno)
      | none =>
        .ok (mutated_connection,
             { g1 with connections := g1.connections ++ [mutated_connection] }, inno + 1)

/-- Disable (enabled := false) the first connection carrying the given
innovation number (Python mutates the object get_connection returns). -/
def disable_connection_in_list (connections : List Connection) (innovation : ℕ) :
    List Connection :=
  match connections with
  | [] => []
  | c :: rest =>
    if c.innovation == innovation then { c with enabled := false } :: rest
    else c :: disable_connection_in_list rest innovation

/-- Genome.mutate_add_node.  Raises AttributeError when the genome has no
connection with the given innovation number (None.input_node).  In the
duplicate branch the two connections are looked up in the generation's
mutated_connections ledger; a missing entry makes add_incoming receive
None (TypeError), or the output-node lookup may return None
(AttributeError) — modelled in the same order the source would raise.
The new hidden node is appended carrying the incoming entry the source
adds immediately afterwards (when old_output happens to equal the fresh
node id the aliased Python object would differ, a state unreachable while
the global counter exceeds every existing node id).  NOTE: as with
mutate_add_connection, the source never appends to
generation.mutated_nodes, so the generation is unchanged and not
returned. -/
def Genome.mutate_add_node (g : Genome) (connection_innovation : ℕ)
    (generation : Generation) (inno : ℕ) :
    Except NeatError (Node × Connection × Connection × Genome × ℕ) :=
  match get_connection_by_innovation g.connections connection_innovation with
  | none => .error .attributeError
  | some old_connection =>
    let old_input := old_connection.input_node
    let old_output := old_connection.output_node
    let dupl : Option ℕ :=
      match generation.check_for_duplicate_node old_connection with
      | some d => if d = 0 then none else some d
      | none => none
    match dupl with
    | some node_id =>
      match get_connection_by_nodes generation.mutated_connections old_input node_id with
      | none => .error .typeError
      | some connection_to_node =>
        let mutated_node : Node :=
          { innovation := node_id, incoming := [connection_to_node.innovation], value := 0 }
        let g1 : Genome :=
          { g with hidden_nodes := g.hidden_nodes ++ [mutated_node],
                   connections := disable_connection_in_list g.connections connection_innovation }
        match g1.get_node old_output with
        | none => .error .attributeError
        | some _ =>
          match get_connection_by_nodes generation.mutated_connections node_id old_output with
          | none => .error .typeError
          | some connection_from_node =>
            let g2 := g1.update_node old_output
              (fun n => n.add_incoming connection_from_node.innovation)
            .ok (mutated_node, connection_to_node, connection_from_node,
                 { g2 with connections := g2.connections
                     ++ [connection_to_node, connection_from_node] }, inno)
    | none =>
      let node_id := inno
      let connection_to_node : Connection :=
        { input_node := old_input, output_node := node_id, innovation := inno + 1,
          weight := 1, enabled := true }
      let connection_from_node : Connection :=
        { input_node := node_id, output_node := old_output, innovation := inno + 2,
          weight := old_connection.weight, enabled := true }
      let mutated_node : Node :=
        { innovation := node_id, incoming := [connection_to_node.innovation], value := 0 }
      let g1 : Genome :=
        { g with hidden_nodes := g.hidden_nodes ++ [mutated_node],
                 connections := disable_connection_in_list g.connections connection_innovation }
      match g1.get_node old_output with
      | none => .error .attributeError
      | some _ =>
        let g2 := g1.update_node old_output
          (fun n => n.add_incoming connection_from_node.innovation)
        .ok (mutated_node, connection_to_node, connection_from_node,
             { g2 with connections := g2.connections
                 ++ [connection_to_node, connection_from_node] }, inno + 3)

/-- A minimal genome with input node 1, output node 2 and the given
connection list. -/
def simple_genome (fit : ℚ) (conns : List Connection) : Genome :=
  { input_nodes := [{ innovation := 1, incoming := [], value := 0 }],
    hidden_nodes := [],
    output_nodes := [{ innovation := 2, incoming := [], value := 0 }],
    connections := conns, fitness := fit }

/-- Generation([]): empty genome list, empty ledgers, and _speciate leaves
the species list empty. -/
def empty_generation : Generation :=
  { epoch := 0, genomes := [], mutated_connections := [], mutated_nodes := [], species := [] }

/-- Evaluation of the C10 theorem at concrete genomes: a connectionless
genome against the Figure-4 first parent errors, while two connectionless
genomes, and the two Figure-4 parents, succeed. -/
theorem gene_differences_empty_one_sided_witness :
    (get_gene_differences empty_genome fig4_first_parent = .error .emptySequenceError
      ∧ ∀ b, get_compatibility_distance b empty_genome fig4_first_parent
          = .error .emptySequenceError)
    ∧ (get_gene_differences empty_genome empty_genome).isOk = true
    ∧ (get_gene_differences fig4_first_parent fig4_second_parent).isOk = true := by
  refine ⟨(gene_differences_empty_one_sided empty_genome fig4_first_parent).1
    (Or.inl ⟨rfl, by decide⟩), ?_, ?_⟩
  · exact ((gene_differences_empty_one_sided empty_genome empty_genome).2 (by decide)).1
  · exact ((gene_differences_empty_one_sided fig4_first_parent fig4_second_parent).2
      (by decide)).1

theorem find?_append_none {α : Type} (l : List α) (p : α → Bool) (c : α)
    (h : l.find? p = none) : (l ++ [c]).find? p = List.find? p [c] := by
  rw [List.find?_append, h]
  rfl

theorem find?_append_singleton_pos {α : Type} (l : List α) (p : α → Bool) (c : α)
    (h : l.find? p = none) (hc : p c = true) : (l ++ [c]).find? p = some c := by
  rw [find?_append_none l p c h]
  exact List.find?_cons_of_pos _ hc

/-- C2: mutate_add_connection never records the new pair in the
generation's ledger — generation.mutated_connections is read (through
check_for_duplicate_connection) but never appended to anywhere in the
source — so two genomes of the same generation adding the same fresh
(1, 2) pair mint the distinct global innovation numbers 100 and 101
instead of the second call reusing 100, and the ledger still has no entry
for the pair afterwards. -/
theorem mutate_add_connection_ledger_never_written :
    ((simple_genome 0 []).mutate_add_connection 1 2 empty_generation (1/2) 100).toOption.map
        (fun r => (r.1.innovation, r.2.2)) = some (100, 101)
    ∧ ((simple_genome 1 []).mutate_add_connection 1 2 empty_generation (1/2) 101).toOption.map
        (fun r => (r.1.innovation, r.2.2)) = some (101, 102)
    ∧ empty_generation.check_for_duplicate_connection 1 2 = none
    ∧ (101 : ℕ) ≠ 100 := by
  decide

/-- The connection split by the C3 scenario. -/
def c3_split_connection : Connection :=
  { input_node := 1, output_node := 2, innovation := 5, weight := 3/4, enabled := true }

/-- C3: mutate_add_node never records the split in the generation's ledger
— generation.mutated_nodes is read (through check_for_duplicate_node) but
never appended to anywhere in the source — so splitting connection 5 in
two genomes of the same generation mints node id 100 (counter 100 → 103)
and then node id 103 (counter 103 → 106): the second split creates three
fresh identifiers instead of reusing the first node id, and the ledger
still has no entry for the split afterwards. -/
theorem mutate_add_node_ledger_never_written :
    ((simple_genome 0 [c3_split_connection]).mutate_add_node 5 empty_generation 100).toOption.map
        (fun r => (r.1.innovation, r.2.2.2.2)) = some (100, 103)
    ∧ ((simple_genome 1 [c3_split_connection]).mutate_add_node 5 empty_generation 103).toOption.map
        (fun r => (r.1.innovation, r.2.2.2.2)) = some (103, 106)
    ∧ empty_generation.check_for_duplicate_node c3_split_connection = none
    ∧ (103 : ℕ) ≠ 100 := by
  decide

/-- On a fresh pair with the output node present and an empty ledger,
mutate_add_connection succeeds and its full result value is as written:
the new connection, the genome with the incoming registration and the
appended gene, and the incremented counter. -/
theorem mutate_add_connection_fresh_eq (g : Genome) (generation : Generation)
    (i o : ℕ) (w : ℚ) (inno : ℕ)
    (h1 : get_connection_by_nodes g.connections i o = none)
    (nd : Node) (hnd : g.get_node o = some nd)
    (h3 : generation.mutated_connections = []) :
    g.mutate_add_connection i o generation w inno
      = .ok ({ input_node := i, output_node := o, innovation := inno,
               weight := w, enabled := true },
             { g.update_node o (fun n => n.add_incoming inno) with
                 connections := (g.update_node o (fun n => n.add_incoming inno)).connections
                   ++ [{ input_node := i, output_node := o, innovation := inno,
                         weight := w, enabled := true }] },
             inno + 1) := by
  have hdup : generation.check_for_duplicate_connection i o = none := by
    simp [Generation.check_for_duplicate_connection, h3]
  simp only [Genome.mutate_add_connection, h1, hnd, hdup]

/-- C6: mutate_add_connection fails with the ConflictError (ValueError)
when the genome already joins the two node ids; on a fresh pair — with the
output node present, the (always empty in practice) ledger empty, and the
minted innovation number not already carried by a connection of this
genome, as the monotone global counter guarantees — it succeeds, and the
new gene is retrievable from the resulting genome both by the (input,
output) pair and by its innovation number. -/
theorem mutate_add_connection_conflict_or_fresh (g : Genome) (generation : Generation)
    (i o : ℕ) (w : ℚ) (inno : ℕ) :
    ((get_connection_by_nodes g.connections i o).isSome = true →
      g.mutate_add_connection i o generation w inno = .error .conflictError)
    ∧ (get_connection_by_nodes g.connections i o = none →
       (g.get_node o).isSome = true →
       generation.mutated_connections = [] →
       (∀ c ∈ g.connections, c.innovation ≠ inno) →
       ∃ g2, g.mutate_add_connection i o generation w inno
           = .ok ({ input_node := i, output_node := o, innovation := inno,
                    weight := w, enabled := true }, g2, inno + 1)
         ∧ get_connection_by_nodes g2.connections i o
           = some { input_node := i, output_node := o, innovation := inno,
                    weight := w, enabled := true }
         ∧ get_connection_by_innovation g2.connections inno
           = some { input_node := i, output_node := o, innovation := inno,
                    weight := w, enabled := true }) := by
  constructor
  · intro h
    obtain ⟨c, hc⟩ := Option.isSome_iff_exists.mp h
    simp only [Genome.mutate_add_connection, hc]
  · intro h1 h2 h3 h4
    obtain ⟨nd, hnd⟩ := Option.isSome_iff_exists.mp h2
    refine ⟨_, mutate_add_connection_fresh_eq g generation i o w inno h1 nd hnd h3, ?_, ?_⟩
    · show ((g.update_node o (fun n => n.add_incoming inno)).connections ++
          [({ input_node := i, output_node := o, innovation := inno,
              weight := w, enabled := true } : Connection)]).find?
          (fun c : Connection => c.input_node == i && c.output_node == o)
        = some { input_node := i, output_node := o, innovation := inno,
                 weight := w, enabled := true }
      rw [Genome.update_node_connections]
      exact find?_append_singleton_pos _ _ _ h1 (by simp)
    · show ((g.update_node o (fun n => n.add_incoming inno)).connections ++
          [({ input_node := i, output_node := o, innovation := inno,
              weight := w, enabled := true } : Connection)]).find?
          (fun c : Connection => c.innovation == inno)
        = some { input_node := i, output_node := o, innovation := inno,
                 weight := w, enabled := true }
      rw [Genome.update_node_connections]
      refine find?_append_singleton_pos _ _ _ ?_ (by simp)
      exact List.find?_eq_none.mpr (fun x hx => by simpa using h4 x hx)

/-- Evaluation of the C6 theorem: adding the fresh pair (1, 2) to a
two-node connectionless genome succeeds with innovation 7 and the gene is
retrievable both ways; adding (1, 2) to a genome already joining 1 to 2
fails with the ConflictError. -/
theorem mutate_add_connection_conflict_or_fresh_witness :
    (∃ g2, (simple_genome 0 []).mutate_add_connection 1 2 empty_generation (1/2) 7
        = .ok ({ input_node := 1, output_node := 2, innovation := 7,
                 weight := 1/2, enabled := true }, g2, 8)
      ∧ get_connection_by_nodes g2.connections 1 2
        = some { input_node := 1, output_node := 2, innovation := 7,
                 weight := 1/2, enabled := true }
      ∧ get_connection_by_innovation g2.connections 7
        = some { input_node := 1, output_node := 2, innovation := 7,
                 weight := 1/2, enabled := true })
    ∧ (simple_genome 0 [c3_split_connection]).mutate_add_connection 1 2 empty_generation
        (1/2) 7 = .error .conflictError := by
  constructor
  · exact (mutate_add_connection_conflict_or_fresh (simple_genome 0 [])
      empty_generation 1 2 (1/2) 7).2 (by decide) (by decide) rfl (by decide)
  · exact (mutate_add_connection_conflict_or_fresh (simple_genome 0 [c3_split_connection])
      empty_generation 1 2 (1/2) 7).1 (by decide)

/-- get_fittest applied to the two-element tuple breed passes it: the fold
keeps the first parent, then replaces it when the second has strictly
higher fitness, or on an exact tie chooses between (candidate, fittest) =
(second, first) by RANDOM.choice (tape index even picks the candidate,
i.e. the second parent).  Returns true when the second parent is the
fitter one. -/
def get_fittest_pair (t : Tape) (a b : Genome) : Bool × Tape :=
  if b.fitness > a.fitness then (true, t)
  else if b.fitness = a.fitness then
    let p := t.nextChoice
    (p.1 % 2 == 0, p.2)
  else (false, t)

/-- One iteration of the breed loop over the fitter parent's connection
genes: a matching gene (same innovation in the weaker parent) is inherited
from a uniformly chosen parent and, when disabled in either parent, its
copy is re-enabled exactly when DISABLED_GENE_REENABLE_CHANCE <
RANDOM.random() — the source comparison as written; a disjoint or excess
gene is copied from the fitter parent with the same treatment when
disabled. -/
def breed_gene (t : Tape) (bad_connections : List Connection) (fit_connection : Connection) :
    Connection × Tape :=
  match get_connection_by_innovation bad_connections fit_connection.innovation with
  | some bad_connection =>
    let p := t.nextChoice
    let random_gene := if p.1 % 2 == 0 then fit_connection else bad_connection
    if fit_connection.enabled = false ∨ bad_connection.enabled = false then
      let q := p.2.nextReal
      ({ random_gene with enabled := decide (DISABLED_GENE_REENABLE_CHANCE < q.1) }, q.2)
    else (random_gene, p.2)
  | none =>
    if fit_connection.enabled = false then
      let q := t.nextReal
      ({ fit_connection with enabled := decide (DISABLED_GENE_REENABLE_CHANCE < q.1) }, q.2)
    else (fit_connection, t)

/-- Generation.breed (the source method never reads self): inputs and
outputs from the first parent, hidden nodes from the fitter parent,
connection genes bred one by one in the fitter parent's order; the
offspring Genome() starts at fitness 0. -/
def breed (t : Tape) (first_parent second_parent : Genome) : Genome × Tape :=
  let fp := get_fittest_pair t first_parent second_parent
  let fit_parent := if fp.1 then second_parent else first_parent
  let bad_parent := if fp.1 then first_parent else second_parent
  let folded := fit_parent.connections.foldl
    (fun (acc : List Connection × Tape) fc =>
      let r := breed_gene acc.2 bad_parent.connections fc
      (acc.1 ++ [r.1], r.2)) ([], fp.2)
  ({ input_nodes := first_parent.input_nodes,
     output_nodes := first_parent.output_nodes,
     hidden_nodes := fit_parent.hidden_nodes,
     connections := folded.1,
     fitness := 0 }, folded.2)

/-- The fitter C4 parent: one disabled connection gene absent in the weaker
parent (a disjoint gene). -/
def c4_fit_parent : Genome :=
  { input_nodes := [{ innovation := 1, incoming := [], value := 0 }],
    hidden_nodes := [],
    output_nodes := [{ innovation := 2, incoming := [], value := 0 }],
    connections := [{ input_node := 1, output_node := 2, innovation := 1,
                      weight := 1/2, enabled := false }],
    fitness := 5 }

/-- The weaker C4 parent: no connection genes. -/
def c4_weak_parent : Genome := simple_genome 2 []

/-- C4: breed writes enabled := (DISABLED_GENE_REENABLE_CHANCE <
RANDOM.random()), so a disabled inherited gene stays disabled on the draw
r = 1/10 < 1/4 (where the claim says it is re-enabled) and is re-enabled
on the draw r = 9/10 > 1/4 (where the claim says it stays disabled): the
code re-enables with probability 1 − 0.25 = 0.75, the inversion of the
claimed DISABLED_GENE_REENABLE_CHANCE = 0.25. -/
theorem breed_reenable_comparison_inverted :
    ((breed { reals := [1/10], choices := [] } c4_fit_parent c4_weak_parent).1.connections.map
        (fun c => c.enabled)) = [false]
    ∧ ((breed { reals := [9/10], choices := [] } c4_fit_parent c4_weak_parent).1.connections.map
        (fun c => c.enabled)) = [true]
    ∧ (1/10 : ℚ) < DISABLED_GENE_REENABLE_CHANCE
    ∧ DISABLED_GENE_REENABLE_CHANCE < 9/10 := by
  decide

/-- Species.get_adjusted_fitness: the genome's fitness shared over the
population size; ValueError (the MembershipError of the spec) when the
genome is not a member.  Membership is modelled structurally; the source
compares with Python ==, which for Genome objects is identity — for
members of the population itself the two coincide. -/
def Species.get_adjusted_fitness (s : Species) (g : Genome) : Except NeatError ℚ :=
  if g ∈ s.population then .ok (g.fitness / (s.population.length : ℚ))
  else .error .membershipError

/-- The adjusted-fitness value get_adjusted_fitness returns for every
member of the population (summed in get_population_fitness, whose plain
iteration leaves the population intact so the membership guard always
passes there). -/
def adjusted_key (pop : List Genome) (g : Genome) : ℚ :=
  g.fitness / (pop.length : ℚ)

/-- Species.get_population_fitness: sum of the adjusted fitness of all
members, starting from 0.0. -/
def Species.get_population_fitness (s : Species) : ℚ :=
  (s.population.map (adjusted_key s.population)).sum

/-- get_population_fitness also caches its result in species.fitness. -/
def Species.update_population_fitness (s : Species) : Species :=
  { s with fitness := s.get_population_fitness }

/-- The sort key of prune as CPython evaluates it:
population.sort(key=lambda g: self.get_adjusted_fitness(g), reverse=True)
temporarily empties the list being sorted for the whole duration of
sort(), key evaluation included, so the lambda's get_adjusted_fitness
call observes self.population = [] and its membership guard fails for
every genome — ValueError (the MembershipError of the spec). -/
def prune_sort_key (s : Species) (g : Genome) : Except NeatError ℚ :=
  Species.get_adjusted_fitness { s with population := [] } g

theorem prune_sort_key_error (s : Species) (g : Genome) :
    prune_sort_key s g = .error .membershipError := by
  simp [prune_sort_key, Species.get_adjusted_fitness]

/-- Species.prune: population.sort(key=..., reverse=True) followed by the
population[:-floor(len * fraction)] slice (taken only when the floor is
positive).  Because the sort key raises on every element (see
prune_sort_key), the sort — and with it prune — raises ValueError
(MembershipError) at the first key evaluation whenever the population is
nonempty, and the slice is never reached.  Sorting an empty population
evaluates no keys, and prune_num = floor(0 * fraction) = 0 then skips the
slice, so only an empty species returns (unchanged).  The fraction
argument is the module constant PRUNE_LOW_PERFORMERS_FRACTION (an
overridable hyperparameter, value 1/4). -/
def Species.prune (fraction : ℚ) (s : Species) : Except NeatError Species :=
  match s.population with
  | [] => .ok s
  | g :: _ =>
    match prune_sort_key s g with
    | .error e => .error e
    | .ok _ => .ok s

/-- prune raises the membership ValueError on every nonempty population
(the fraction is never consulted). -/
theorem prune_error_of_population_ne_nil (f : ℚ) (s : Species)
    (h : s.population ≠ []) : s.prune f = .error .membershipError := by
  rcases hpop : s.population with _ | ⟨g, rest⟩
  · exact absurd hpop h
  · simp only [Species.prune, hpop, prune_sort_key_error]

/-- Generation.assign_offspring: generation_fitness sums every species'
population fitness (caching it on the species as the source's map is
consumed by sum), then every species' quota is
floor(fitness / generation_fitness * MAX_POPULATION_SIZE); the first
division raises ZeroDivisionError when the total is zero and at least one
species exists (with no species the loop body never runs). -/
def Generation.assign_offspring (gen : Generation) : Except NeatError Generation :=
  let species := gen.species.map Species.update_population_fitness
  let generation_fitness := (species.map (fun s => s.fitness)).sum
  if species.isEmpty then .ok { gen with species := species }
  else if generation_fitness = 0 then .error .zeroDivisionError
  else .ok { gen with species := species.map (fun s =>
      { s with max_population :=
          ⌊s.fitness / generation_fitness * (MAX_POPULATION_SIZE : ℚ)⌋ }) }

/-- C9: whenever every species' population fitness sums to zero — in
particular for a freshly seeded population whose genomes all carry the
default fitness 0 — and at least one species exists, assign_offspring
raises ZeroDivisionError instead of assigning quotas. -/
theorem assign_offspring_zero_fitness_division (gen : Generation)
    (h1 : gen.species ≠ [])
    (h2 : ∀ s ∈ gen.species, s.get_population_fitness = 0) :
    gen.assign_offspring = .error .zeroDivisionError := by
  simp only [Generation.assign_offspring]
  have hempty : (gen.species.map Species.update_population_fitness).isEmpty = false := by
    rcases hsp : gen.species with _ | ⟨s, rest⟩
    · exact absurd hsp h1
    · rfl
  have hsum : (((gen.species.map Species.update_population_fitness)).map
      (fun s => s.fitness)).sum = 0 := by
    apply List.sum_eq_zero
    intro x hx
    rw [List.map_map] at hx
    obtain ⟨s0, hs0, rfl⟩ := List.mem_map.mp hx
    exact h2 s0 hs0
  rw [if_neg (by simp [hempty]), if_pos hsum]

/-- The generation used to evaluate the C9 theorem: one species holding a
single genome with the default fitness 0. -/
def c9_generation : Generation :=
  { epoch := 0, genomes := [simple_genome 0 []],
    mutated_connections := [], mutated_nodes := [],
    species := [{ id := 0, population := [simple_genome 0 []],
                  representative := simple_genome 0 [], champion := none,
                  fitness := 0, max_population := 0 }] }

/-- Evaluation of the C9 theorem on a one-species generation whose only
genome has the default fitness 0. -/
theorem assign_offspring_zero_fitness_division_witness :
    c9_generation.assign_offspring = .error .zeroDivisionError :=
  assign_offspring_zero_fitness_division c9_generation (by decide) (by decide)

/-- The four-member species used to evaluate the C7 theorem. -/
def c7_species : Species :=
  { id := 0,
    population := [simple_genome 1 [], simple_genome 4 [], simple_genome 2 [],
                   simple_genome 3 []],
    representative := simple_genome 1 [], champion := none, fitness := 0,
    max_population := 0 }

/-- C7: CPython's list.sort temporarily empties the list being sorted for
the whole duration of sort(), key evaluation included; prune's sort key
calls get_adjusted_fitness, whose membership guard therefore checks the
genome against the emptied population and raises ValueError (the
MembershipError of the spec) at the first key evaluation.  So prune on
the four-member species raises — at the source's fraction 1/4 and at any
other — sorting nothing and removing nothing, instead of sorting by
adjusted fitness and removing floor(N × PRUNE_FRACTION) members from the
tail as the claim (and prune's own docstring) describe; only an empty
population returns, unchanged. -/
theorem prune_raises_on_nonempty_population :
    c7_species.prune PRUNE_LOW_PERFORMERS_FRACTION = .error .membershipError
    ∧ c7_species.prune (1/2) = .error .membershipError
    ∧ { c7_species with population := [simple_genome 1 []] }.prune
        PRUNE_LOW_PERFORMERS_FRACTION = .error .membershipError
    ∧ { c7_species with population := [] }.prune PRUNE_LOW_PERFORMERS_FRACTION
        = .ok { c7_species with population := [] } := by
  decide

/-- Genome.mutate_weights: per connection one gate draw; below
MUTATE_WEIGHTS_UNIFORMLY_CHANCE the weight is perturbed by
(RANDOM.random() * 2 − 1) * STEP_SIZE, otherwise replaced by a fresh
RANDOM.random() draw. -/
def Genome.mutate_weights (g : Genome) (t : Tape) : Genome × Tape :=
  let folded := g.connections.foldl
    (fun (acc : List Connection × Tape) c =>
      let p := acc.2.nextReal
      if p.1 < MUTATE_WEIGHTS_UNIFORMLY_CHANCE then
        let q := p.2.nextReal
        (acc.1 ++ [{ c with weight := c.weight + (q.1 * 2 - 1) * STEP_SIZE }], q.2)
      else
        let q := p.2.nextReal
        (acc.1 ++ [{ c with weight := q.1 }], q.2)) ([], t)
  ({ g with connections := folded.1 }, folded.2)

/-- get_fittest over a sequence: linear scan keeping the incumbent,
replacing it on strictly higher fitness, and on an exact tie choosing
uniformly between (candidate, incumbent) — an even tape index picks the
candidate; None for an empty sequence. -/
def get_fittest (t : Tape) (genomes : List Genome) : Option Genome × Tape :=
  genomes.foldl
    (fun (acc : Option Genome × Tape) candidate =>
      match acc.1 with
      | none => (some candidate, acc.2)
      | some fittest =>
        if candidate.fitness > fittest.fitness then (some candidate, acc.2)
        else if candidate.fitness = fittest.fitness then
          let p := acc.2.nextChoice
          (some (if p.1 % 2 == 0 then candidate else fittest), p.2)
        else (some fittest, acc.2)) (none, t)

/-- Species.choose_champion: a uniformly random member when the population
is below CHAMPION_THRESHOLD, else the fittest member.  Note that
advance_epoch never actually invokes this (see Generation.advance_epoch). -/
def Species.choose_champion (t : Tape) (s : Species) : Except NeatError (Species × Tape) :=
  if s.population.length < CHAMPION_THRESHOLD then
    let p := chooseFrom t s.population
    match p.1 with
    | none => .error .indexError
    | some c => .ok ({ s with champion := some c }, p.2)
  else
    let p := get_fittest t s.population
    .ok ({ s with champion := p.1 }, p.2)

/-- Species(species_id, representative): the population starts as the
one-element list holding the representative, champion None. -/
def Species.init (species_id : ℕ) (representative : Genome) : Species :=
  { id := species_id, population := [representative], representative := representative,
    champion := none, fitness := 0, max_population := 0 }

/-- First-match species assignment of _speciate: the genome joins the
first species whose representative is within COMPATIBILITY_THRESHOLD
(distance errors propagate); none when no species matched. -/
def try_assign_species (specs : List Species) (gm : Genome) :
    Except NeatError (Option (List Species)) :=
  match specs with
  | [] => .ok none
  | sp :: rest =>
    match get_compatibility_distance NORMALISE_COMPAT_DISTANCE_FOR_GENE_SIZE gm
        sp.representative with
    | .error e => .error e
    | .ok d =>
      if d ≤ COMPATIBILITY_THRESHOLD then
        .ok (some ({ sp with population := sp.population ++ [gm] } :: rest))
      else
        match try_assign_species rest gm with
        | .error e => .error e
        | .ok none => .ok none
        | .ok (some rest2) => .ok (some (sp :: rest2))

/-- Generation._speciate with no previous generation: the first genome
seeds species 0; every further genome joins the first compatible species
or founds a new one with id = last id + 1 (the species list is nonempty
at that point, so the getD default is never taken). -/
def speciate_initial (genomes : List Genome) : Except NeatError (List Species) :=
  match genomes with
  | [] => .ok []
  | g0 :: rest =>
    rest.foldlM
      (fun specs gm => do
        match ← try_assign_species specs gm with
        | some specs2 => pure specs2
        | none => pure (specs ++
            [Species.init (((specs.getLast?).map (fun sp => sp.id)).getD 0 + 1) gm]))
      [Species.init 0 g0]

/-- Generation.__init__ with no previous generation: epoch 0, empty
ledgers, then _speciate. -/
def Generation.init (genomes : List Genome) : Except NeatError Generation := do
  let specs ← speciate_initial genomes
  pure { epoch := 0, genomes := genomes, mutated_connections := [],
         mutated_nodes := [], species := specs }

/-- The add-connection gate closing the mutate loop body: one gate draw,
then the two endpoint choices (inputs + hidden, hidden + outputs) and
mutate_add_connection at the default weight 0.5.  An empty choice
sequence raises IndexError (the model reports it after drawing both
choice indices; Python would raise at the first empty sequence — on the
error path nothing further is observed). -/
def mutate_genome_tail (t : Tape) (gen : Generation) (gm : Genome) (inno : ℕ) :
    Except NeatError (Genome × Tape × ℕ) :=
  let p3 := t.nextReal
  if p3.1 < MUTATE_ADD_CONNECTION_CHANCE then
    let chIn := chooseFrom p3.2 (gm.input_nodes ++ gm.hidden_nodes)
    let chOut := chooseFrom chIn.2 (gm.hidden_nodes ++ gm.output_nodes)
    match chIn.1, chOut.1 with
    | some ni, some no =>
      match gm.mutate_add_connection ni.innovation no.innovation gen (1/2) inno with
      | .error e => .error e
      | .ok r => .ok (r.2.1, chOut.2, r.2.2)
    | _, _ => .error .indexError
  else .ok (gm, p3.2, inno)

/-- The mutate loop body for one genome: a genome that is the species
champion is skipped entirely (champion is None until choose_champion runs,
which advance_epoch never does — see there); otherwise the weight-mutation
gate, the add-node gate (with the split connection drawn from the genome's
connections), and the add-connection gate run in order, threading gen as
the (never written) innovation ledger. -/
def mutate_genome (t : Tape) (gen : Generation) (s : Species) (gm : Genome) (inno : ℕ) :
    Except NeatError (Genome × Tape × ℕ) :=
  if s.champion = some gm then .ok (gm, t, inno)
  else
    let p1 := t.nextReal
    let w := if p1.1 < MUTATE_WEIGHTS_CHANCE then gm.mutate_weights p1.2 else (gm, p1.2)
    let p2 := w.2.nextReal
    if p2.1 < MUTATE_ADD_NODE_CHANCE then
      let ch := chooseFrom p2.2 w.1.connections
      match ch.1 with
      | none => .error .indexError
      | some c =>
        match w.1.mutate_add_node c.innovation gen inno with
        | .error e => .error e
        | .ok r => mutate_genome_tail ch.2 gen r.2.2.2.1 r.2.2.2.2
    else mutate_genome_tail p2.2 gen w.1 inno

/-- Generation.mutate: re-speciate when the species list is empty, then
run the mutate loop body over every genome of every species' population.
The source mutates genome objects aliased between generation.genomes and
the species populations; the model updates the populations, leaving
generation.genomes stale (it is not read again within the epoch
pipeline). -/
def Generation.mutate (gen : Generation) (t : Tape) (inno : ℕ) :
    Except NeatError (Generation × Tape × ℕ) := do
  let specs ← if gen.species.isEmpty then speciate_initial gen.genomes
              else pure gen.species
  let folded ← specs.foldlM
    (fun (acc : List Species × Tape × ℕ) sp => do
      let inner ← sp.population.foldlM
        (fun (acc2 : List Genome × Tape × ℕ) gm => do
          let r ← mutate_genome acc2.2.1 { gen with species := specs } sp gm acc2.2.2
          pure (acc2.1 ++ [r.1], r.2))
        ([], acc.2.1, acc.2.2)
      pure (acc.1 ++ [{ sp with population := inner.1 }], inner.2))
    ([], t, inno)
  pure ({ gen with species := folded.1 }, folded.2)

/-- Generation.advance_epoch, up to the construction of the next
Generation (the source's final `return Generation(next_generation, self)`
re-runs speciation against self and is outside this model; the claims
concern the pipeline before it).  The source wraps choose_champion and
prune in `map(lambda s: ..., self.species)` whose lazy map objects are
discarded without ever being consumed, so neither choose_champion nor
prune executes — faithfully, neither is called here.  The next
generation's genome list starts with the champions of all species (all
None at this point) and is extended, per species, by max_population
children bred from parents drawn with replacement from the (unpruned)
population.  Returns the next generation's genome list and the final
state of the current generation. -/
def Generation.advance_epoch (gen : Generation) (t : Tape) (inno : ℕ) :
    Except NeatError (List Genome × Generation × Tape × ℕ) := do
  let m ← gen.mutate t inno
  let gen2 ← m.1.assign_offspring
  let start := gen2.species.filterMap (fun sp => sp.champion)
  let bred ← gen2.species.foldlM
    (fun (acc : List Genome × Tape) sp =>
      (List.range sp.max_population.toNat).foldlM
        (fun (acc2 : List Genome × Tape) _ => do
          let c1 := chooseFrom acc2.2 sp.population
          match c1.1 with
          | none => .error .indexError
          | some parent1 =>
            let c2 := chooseFrom c1.2 sp.population
            match c2.1 with
            | none => .error .indexError
            | some parent2 =>
              let r := breed c2.2 parent1 parent2
              pure (acc2.1 ++ [r.1], r.2))
        acc)
    (start, m.2.1)
  pure (bred.1, gen2, bred.2, m.2.2)

/-- The tape for the C1 evaluation: one 0.9 draw per mutation gate (three
gates for each of the four genomes, so no mutation fires) and index 0 for
every RANDOM.choice (two parent draws and one fitness tie-break per bred
child, 150 children). -/
def c1_tape : Tape :=
  { reals := List.replicate 12 (9/10), choices := List.replicate 450 0 }

set_option maxRecDepth 100000 in
/-- C1: Python's map is lazy and advance_epoch discards both map(...)
results, so choose_champion and prune never execute.  After a full epoch
on a generation of four connectionless genomes (fitness 1, 2, 3, 4,
forming one species), the species still has champion None and its full
unpruned population of 4, and the next generation's 150-genome list
contains no champion survivor: every entry is a freshly bred child with
fitness 0, although every current genome has fitness at least 1.  This
contradicts the claim that every species chooses its champion and prunes
before breeding and that the next generation's list begins with the
surviving champions. -/
theorem advance_epoch_skips_champions_and_pruning :
    ((Generation.init [simple_genome 1 [], simple_genome 2 [], simple_genome 3 [],
        simple_genome 4 []]).bind
      (fun gen => gen.advance_epoch c1_tape 50)).toOption.map
        (fun r => (r.2.1.species.map (fun sp => (sp.champion.isNone, sp.population.length)),
                   r.1.length,
                   r.1.all (fun gm => gm.fitness == 0)))
      = some ([(true, 4)], 150, true) := by
  decide
